import Mathlib

/-!
Verification development for the adex-carnot-battery cycle solvers
(`hp_simult.py`, `orc_simult.py`).

Conventions of the shallow embedding:
* floating-point scalars are embedded as exact rationals;
* the thermophysical property oracle (CoolProp `PropsSI`) and the assembled
  residual / Jacobian evaluations are abstracted as function parameters,
  since the claims under study concern the loop and ledger structure, not
  the property correlations;
* the check `np.linalg.norm(residual) > 1e-4` is embedded as
  `sumSq residual > (1e-4)^2`, which is equivalent because both sides of
  the original comparison are nonnegative;
* the unbounded `while` loops are embedded with an explicit fuel argument;
  running out of fuel returns `none`, so a `some` result corresponds
  exactly to a terminating run of the Python loop.
-/

namespace AdexCB
/-- Python `abs` on rationals. -/
def absQ (x : ℚ) : ℚ := if x < 0 then -x else x

/-- Sum of squares of a residual vector: `sumSq r` compares against the
square of the tolerance exactly when `np.linalg.norm r` compares against
the tolerance. -/
def sumSq (r : List ℚ) : ℚ := (r.map fun a => a * a).foldl (· + ·) 0

/-- Componentwise subtraction `x - d` of two vectors. -/
def vsub (x d : List ℚ) : List ℚ := List.zipWith (fun a b => a - b) x d

/-- Square of the Newton convergence tolerance `1e-4`. -/
def newtonTolSq : ℚ := 1 / 100000000

/-- The vector `np.ones n` used to seed the residual before the loop. -/
def onesVec (n : Nat) : List ℚ := List.replicate n 1

/-- The `while` loop shared by `hp_simultaneous` and `orc_simultaneous`:
state is the pair (current unknowns `x`, residual `r` left over from the
previous pass).  The loop head tests `r`; the body evaluates the residual
at `x`, always applies the Newton update `x - inv(J) * r`, and loops with
the freshly evaluated residual.  `S x r` abstracts
`np.linalg.inv(jacobian(x)).dot(r)`; subtracting it realizes the update
`unknowns += delta` with `J * delta = -r`. -/
def newtonWhile (F : List ℚ → List ℚ) (S : List ℚ → List ℚ → List ℚ) :
    Nat → List ℚ → List ℚ → Option (List ℚ)
  | 0, _, _ => none
  | fuel + 1, x, r =>
    if sumSq r ≤ newtonTolSq then some x
    else
      let rNew := F x
      let xNew := vsub x (S x rNew)
      newtonWhile F S fuel xNew rNew

/-- Entry point of the solver loop: `residual = np.ones (len variables)`
followed by the `while` loop. -/
def newtonSolve (F : List ℚ → List ℚ) (S : List ℚ → List ℚ → List ℚ)
    (fuel n : Nat) (x0 : List ℚ) : Option (List ℚ) :=
  newtonWhile F S fuel x0 (onesVec n)

/-- Modelled from the spec: the Newton state machine of section 4.3.
Evaluate the residual from the current unknowns; if its norm is below the
tolerance, transition to converged and return the CURRENT unknown vector
without applying a further update; otherwise update and remain
iterating. -/
def newtonSpecMachine (F : List ℚ → List ℚ) (S : List ℚ → List ℚ → List ℚ) :
    Nat → List ℚ → Option (List ℚ)
  | 0, _ => none
  | fuel + 1, x =>
    let r := F x
    if sumSq r < newtonTolSq then some x
    else newtonSpecMachine F S fuel (vsub x (S x r))

/-- The concrete residual oracle used below: a constant residual whose norm
is strictly below the tolerance. -/
def tinyF : List ℚ → List ℚ := fun _ => [1 / 20000]

/-- The concrete linear-solve oracle used below: identity Jacobian. -/
def idS : List ℚ → List ℚ → List ℚ := fun _ r => r

/-- A residual oracle whose norm never falls below the tolerance. -/
def bigF : List ℚ → List ℚ := fun _ => [1]

/-! ## Unknown-vector layout and equation-slot selection (C2, C9) -/

/-- Kind of a position of the unknown vector. -/
inductive VarTag
  | enthalpy
  | pressure
  | massFlow
  | power
deriving DecidableEq

/-- Layout of the `variables` array built by `hp_simultaneous`, in source
order: `[h16, h11, p11, h12, m11, power, h21, h22, h13, h15, p16, p13,
h14, p14, p22, p15, h18, h19, h28, h29, p18, p19, p28, p29]`. -/
def hpVariablesLayout : List VarTag :=
  [.enthalpy, .enthalpy, .pressure, .enthalpy, .massFlow, .power,
   .enthalpy, .enthalpy, .enthalpy, .enthalpy, .pressure, .pressure,
   .enthalpy, .pressure, .pressure, .pressure,
   .enthalpy, .enthalpy, .enthalpy, .enthalpy,
   .pressure, .pressure, .pressure, .pressure]

/-- Layout of the `variables` array built by `orc_simultaneous`, in source
order: `[h31, p31, h32, h36, p36, p32, p34, h34, p35, h35, h33, h41, h42,
p42, m31, h38, h39, h48, h49, p38, p39, p48, p49]`. -/
def orcVariablesLayout : List VarTag :=
  [.enthalpy, .pressure, .enthalpy, .enthalpy, .pressure, .pressure,
   .pressure, .enthalpy, .pressure, .enthalpy, .enthalpy, .enthalpy,
   .enthalpy, .pressure, .massFlow,
   .enthalpy, .enthalpy, .enthalpy, .enthalpy,
   .pressure, .pressure, .pressure, .pressure]

/-- The per-component real/ideal flags of the heat pump (`config` dict). -/
structure HpConfig where
  comp : Bool
  cond : Bool
  ihx : Bool
  val : Bool
  eva : Bool
deriving DecidableEq

/-- The per-component real/ideal flags of the ORC (`config` dict). -/
structure OrcConfig where
  pump : Bool
  eva : Bool
  exp : Bool
  ihx : Bool
  cond : Bool
deriving DecidableEq

/-- The residual / derivative variant that can occupy an equation slot. -/
inductive EqnForm
  | etaSCompressor
  | epsCompressorIdeal
  | epsCompressorFile
  | etaSExpander
  | epsExpanderIdeal
  | epsExpanderFile
  | sameTemperature
  | ttdTemperature
  | epsRealIhxFile
  | temperatureSet
  | epsRealHeFile
  | prConstraint
  | turboPower
  | heEnergyBalance
  | idealHeEntropy
  | ihxEnergyBalance
  | idealIhxEntropy
  | valveEnthalpy
  | idealValveEntropy
  | xSaturation
deriving DecidableEq

/-- The equation variant occupying each of the residual slots of
`hp_simultaneous`, translated branch by branch from the slot comments
0 to 23 of the source. -/
def hpEquations (adex : Bool) (c : HpConfig) : List EqnForm :=
  [ -- slot 0: compressor
    if adex && !c.comp then .epsCompressorIdeal
    else if adex && c.comp then .epsCompressorFile
    else .etaSCompressor,
    -- slot 1: t16
    if adex && !c.ihx then .sameTemperature
    else if adex && c.ihx then .epsRealIhxFile
    else .temperatureSet,
    -- slot 2: t12
    if adex && c.cond then .epsRealHeFile else .temperatureSet,
    -- slot 3: p11
    .prConstraint,
    -- slot 4: compressor power
    .turboPower,
    -- slot 5: condenser
    if adex && !c.cond then .idealHeEntropy else .heEnergyBalance,
    -- slot 6: t21
    .temperatureSet,
    -- slot 7: t22
    .temperatureSet,
    -- slot 8: ihx
    if adex && !c.ihx then .idealIhxEntropy else .ihxEnergyBalance,
    -- slot 9: p16
    .prConstraint,
    -- slot 10: p13
    .prConstraint,
    -- slot 11: valve
    if adex && !c.val then .idealValveEntropy else .valveEnthalpy,
    -- slot 12: p15
    .xSaturation,
    -- slot 13: t14
    .temperatureSet,
    -- slot 14: p22
    .prConstraint,
    -- slot 15: p14
    .prConstraint,
    -- slots 16 to 19: condenser eco / sh sections
    .xSaturation, .heEnergyBalance, .xSaturation, .heEnergyBalance,
    -- slots 20 to 23: condenser section pressures
    .prConstraint, .prConstraint, .prConstraint, .prConstraint]

/-- The equation variant occupying each of the residual slots of
`orc_simultaneous`, translated branch by branch from the slot comments
0 to 22 of the source. -/
def orcEquations (adex : Bool) (c : OrcConfig) : List EqnForm :=
  [ -- slot 0: t31
    .temperatureSet,
    -- slot 1: p31
    .xSaturation,
    -- slot 2: pump
    if adex && !c.pump then .epsCompressorIdeal
    else if adex && c.pump then .epsCompressorFile
    else .etaSCompressor,
    -- slot 3: t36
    if adex && !c.ihx then
      (if c.cond then .ttdTemperature else .sameTemperature)
    else .ttdTemperature,
    -- slots 4 to 6: p36, p32, p34
    .prConstraint, .prConstraint, .prConstraint,
    -- slot 7: t34
    .temperatureSet,
    -- slot 8: p35
    .prConstraint,
    -- slot 9: expander
    if adex && !c.exp then .epsExpanderIdeal
    else if adex && c.exp then .epsExpanderFile
    else .etaSExpander,
    -- slot 10: ihx
    if adex && !c.ihx then .idealIhxEntropy else .ihxEnergyBalance,
    -- slot 11: t41
    .temperatureSet,
    -- slot 12: t42
    .temperatureSet,
    -- slot 13: p42
    .prConstraint,
    -- slot 14: evaporator
    if adex && !c.eva then .idealHeEntropy else .heEnergyBalance,
    -- slots 15 to 18: evaporator eco / sh sections
    .xSaturation, .heEnergyBalance, .xSaturation, .heEnergyBalance,
    -- slots 19 to 22: evaporator section pressures
    .prConstraint, .prConstraint, .prConstraint, .prConstraint]

/-- Whether an equation variant reads the `epsilon` record recovered from
the prior real-run CSV file. -/
def needsEpsilonFile : EqnForm → Bool
  | .epsCompressorFile => true
  | .epsExpanderFile => true
  | .epsRealIhxFile => true
  | .epsRealHeFile => true
  | _ => false

/-! ## Design-point search loops (C3, C4)

`find_opt_p12` and `find_opt_p33` are embedded with the converged inner
solve abstracted as an oracle `solve : pressure -> realized minimum
temperature difference`. -/

/-- Target minimum temperature difference selected by `find_opt_p12`:
5 K when the condenser is marked real, otherwise 0 K. -/
def hpTargetMinTd (c : HpConfig) : ℚ := if c.cond then 5 else 0

/-- Target minimum temperature difference selected by `find_opt_p33`:
5 K when the evaporator is marked real, otherwise 0 K. -/
def orcTargetMinTd (c : OrcConfig) : ℚ := if c.eva then 5 else 0

/-- `tolerance = 1e-3` of both search loops. -/
def searchTolerance : ℚ := 1 / 1000

/-- `learning_rate = 1e4` of `find_opt_p12`. -/
def hpLearningRate : ℚ := 10000

/-- `learning_rate = 5e4` of `find_opt_p33`. -/
def orcLearningRate : ℚ := 50000

/-- The `while` loop of `find_opt_p12`: state is (pressure, last realized
minimum temperature difference, loop-guard difference).  The body adds
`(target - cur) * learning_rate` to the pressure, re-solves, and loops on
the absolute deviation of the fresh realized difference. -/
def hpSearchGo (solve : ℚ → ℚ) (target : ℚ) :
    Nat → ℚ → ℚ → ℚ → Option ℚ
  | 0, _, _, _ => none
  | fuel + 1, p, cur, diff =>
    if absQ diff ≤ searchTolerance then some p
    else
      let adjustment := (target - cur) * hpLearningRate
      let pNew := p + adjustment
      let curNew := solve pNew
      hpSearchGo solve target fuel pNew curNew (absQ (curNew - target))

/-- The `while` loop of `find_opt_p33`.  Identical to the heat-pump loop
except for the learning rate and the NEGATED adjustment
`-(target - cur) * learning_rate`. -/
def orcSearchGo (solve : ℚ → ℚ) (target : ℚ) :
    Nat → ℚ → ℚ → ℚ → Option ℚ
  | 0, _, _, _ => none
  | fuel + 1, p, cur, diff =>
    if absQ diff ≤ searchTolerance then some p
    else
      let adjustment := -(target - cur) * orcLearningRate
      let pNew := p + adjustment
      let curNew := solve pNew
      orcSearchGo solve target fuel pNew curNew (absQ (curNew - target))

/-- `find_opt_p12`: the loop enters with `min_t_diff_cond` initialized to
the TARGET (so the first adjustment is always zero) and the guard set to
the signed deviation of the starting realized difference. -/
def findOptP12 (solve : ℚ → ℚ) (c : HpConfig) (fuel : Nat)
    (pStart minTdStart : ℚ) : Option ℚ :=
  let target := hpTargetMinTd c
  hpSearchGo solve target fuel pStart target (minTdStart - target)

/-- `find_opt_p33`, with the same initialization pattern as
`findOptP12`. -/
def findOptP33 (solve : ℚ → ℚ) (c : OrcConfig) (fuel : Nat)
    (pStart minTdStart : ℚ) : Option ℚ :=
  let target := orcTargetMinTd c
  orcSearchGo solve target fuel pStart target (minTdStart - target)

/-- Modelled from the spec: proportional update
`pressure += (target_diff - current_diff) * learning_rate`, re-solve,
recompute `current_diff`, repeat until
`|current_diff - target_diff| < tolerance`. -/
def specProportionalSearch (solve : ℚ → ℚ) (target lr tol : ℚ) :
    Nat → ℚ → ℚ → Option ℚ
  | 0, _, _ => none
  | fuel + 1, p, cur =>
    if absQ (cur - target) < tol then some p
    else
      let pNew := p + (target - cur) * lr
      specProportionalSearch solve target lr tol fuel pNew (solve pNew)

/-- The piecewise solve oracle used in the C3 counterexample. -/
def stepSolve : ℚ → ℚ := fun p => if p < 0 then 5 else 4

/-! ## Exergy analysis (C5)

Embeds the exergy-destruction and exergy-efficiency formulas of
`exergy_analysis_hp` / `exergy_analysis_orc` over the converged stream
table.  Property-oracle outputs (`PropsSI` at the dead state and at the
valve inlet / outlet pressures) are fields of an oracle record. -/

/-- The stream-table scalars read by `exergy_analysis_hp`: mass flows,
the Celsius temperature of node 14, and the enthalpy / entropy columns
of the working-fluid and TES nodes. -/
structure HpStreams where
  m11 : ℚ
  m21 : ℚ
  t14 : ℚ
  h11 : ℚ
  h12 : ℚ
  h13 : ℚ
  h14 : ℚ
  h15 : ℚ
  h16 : ℚ
  s11 : ℚ
  s12 : ℚ
  s13 : ℚ
  s14 : ℚ
  s15 : ℚ
  s16 : ℚ
  s21 : ℚ
  s22 : ℚ
deriving DecidableEq

/-- Property-oracle outputs consumed by `exergy_analysis_hp`: dead-state
enthalpy / entropy of the working fluid, and the ambient-temperature
states at the valve inlet and outlet pressures. -/
structure HpPropsOracle where
  h0wf : ℚ
  s0wf : ℚ
  h13a : ℚ
  s13a : ℚ
  h14a : ℚ
  s14a : ℚ
deriving DecidableEq

/-- Specific physical exergy `h - h0 - t0 * (s - s0) * 1e-3` of a
working-fluid state. -/
def ePHwf (t0 : ℚ) (o : HpPropsOracle) (h s : ℚ) : ℚ :=
  h - o.h0wf - t0 * (s - o.s0wf) * (1 / 1000)

/-- `ED_COMP = T0 * m11 * (s11 - s16)` (entropy generation). -/
def edCompHp (t0 : ℚ) (d : HpStreams) : ℚ :=
  t0 * (d.m11 * (d.s11 - d.s16)) * (1 / 1000)

/-- `ED_COND = T0 * (m11 * (s12 - s11) + m21 * (s22 - s21))`. -/
def edCondHp (t0 : ℚ) (d : HpStreams) : ℚ :=
  t0 * (d.m11 * (d.s12 - d.s11) + d.m21 * (d.s22 - d.s21)) * (1 / 1000)

/-- `ED_IHX = T0 * (m11 * (s13 - s12) + m11 * (s16 - s15))`. -/
def edIhxHp (t0 : ℚ) (d : HpStreams) : ℚ :=
  t0 * (d.m11 * (d.s13 - d.s12) + d.m11 * (d.s16 - d.s15)) * (1 / 1000)

/-- `ED_VAL = T0 * m11 * (s14 - s13)`. -/
def edValHp (t0 : ℚ) (d : HpStreams) : ℚ :=
  t0 * (d.m11 * (d.s14 - d.s13)) * (1 / 1000)

/-- `ED_EVA = m11 * (e14 - e15)`: difference of physical exergy flows of
the dissipative evaporator. -/
def edEvaHp (t0 : ℚ) (o : HpPropsOracle) (d : HpStreams) : ℚ :=
  d.m11 * (ePHwf t0 o d.h14 d.s14 - ePHwf t0 o d.h15 d.s15)

/-- `EF_COMP = m11 * (h11 - h16)`. -/
def efCompHp (d : HpStreams) : ℚ := d.m11 * (d.h11 - d.h16)

/-- `EF_COND = m11 * (e11 - e12)`. -/
def efCondHp (t0 : ℚ) (o : HpPropsOracle) (d : HpStreams) : ℚ :=
  d.m11 * (ePHwf t0 o d.h11 d.s11 - ePHwf t0 o d.h12 d.s12)

/-- `EF_IHX = m11 * (e12 - e13)`. -/
def efIhxHp (t0 : ℚ) (o : HpPropsOracle) (d : HpStreams) : ℚ :=
  d.m11 * (ePHwf t0 o d.h12 d.s12 - ePHwf t0 o d.h13 d.s13)

def epsilonCompHp (t0 : ℚ) (d : HpStreams) : ℚ :=
  1 - edCompHp t0 d / efCompHp d

def epsilonCondHp (t0 : ℚ) (o : HpPropsOracle) (d : HpStreams) : ℚ :=
  1 - edCondHp t0 d / efCondHp t0 o d

def epsilonIhxHp (t0 : ℚ) (o : HpPropsOracle) (d : HpStreams) : ℚ :=
  1 - edIhxHp t0 d / efIhxHp t0 o d

/-- Thermal part of the physical exergy at the valve inlet. -/
def e13t (t0 : ℚ) (o : HpPropsOracle) (d : HpStreams) : ℚ :=
  d.h13 - o.h13a - t0 * (d.s13 - o.s13a) * (1 / 1000)

/-- Thermal part of the physical exergy at the valve outlet. -/
def e14t (t0 : ℚ) (o : HpPropsOracle) (d : HpStreams) : ℚ :=
  d.h14 - o.h14a - t0 * (d.s14 - o.s14a) * (1 / 1000)

/-- Mechanical part of the physical exergy at the valve inlet. -/
def e13m (t0 : ℚ) (o : HpPropsOracle) : ℚ :=
  o.h13a - o.h0wf - t0 * (o.s13a - o.s0wf) * (1 / 1000)

/-- Mechanical part of the physical exergy at the valve outlet. -/
def e14m (t0 : ℚ) (o : HpPropsOracle) : ℚ :=
  o.h14a - o.h0wf - t0 * (o.s14a - o.s0wf) * (1 / 1000)

/-- `ef_val = (e13t + e13m - e14m) * m11` of the real subcooled valve. -/
def efValHp (t0 : ℚ) (o : HpPropsOracle) (d : HpStreams) : ℚ :=
  (e13t t0 o d + e13m t0 o - e14m t0 o) * d.m11

/-- The valve exergy efficiency of `exergy_analysis_hp`, with `none`
standing for `np.nan`.  Branch 1: near-isentropic states are treated as
an ideal expander; branch 2: an outlet STRICTLY warmer than the ambient
makes the valve dissipative; branch 3: thermal / mechanical split. -/
def epsilonValHp (t0 : ℚ) (o : HpPropsOracle) (d : HpStreams) : Option ℚ :=
  if absQ (d.s13 - d.s14) < 1 / 1000 then
    some (1 - edValHp t0 d /
      (d.m11 * (ePHwf t0 o d.h13 d.s13 - ePHwf t0 o d.h14 d.s14)))
  else if t0 - 5463 / 20 < d.t14 then none
  else some (e14t t0 o d / (e13t t0 o d + e13m t0 o - e14m t0 o))

/-- `epsilon['eva'] = np.nan`: the dissipative evaporator of the heat
pump never receives an efficiency. -/
def epsilonEvaHp : Option ℚ := none

/-- The stream-table scalars read by `exergy_analysis_orc`. -/
structure OrcStreams where
  m31 : ℚ
  m41 : ℚ
  h31 : ℚ
  h32 : ℚ
  h33 : ℚ
  h34 : ℚ
  h35 : ℚ
  h36 : ℚ
  h41 : ℚ
  h42 : ℚ
  s31 : ℚ
  s32 : ℚ
  s33 : ℚ
  s34 : ℚ
  s35 : ℚ
  s36 : ℚ
  s41 : ℚ
  s42 : ℚ
deriving DecidableEq

/-- Dead-state enthalpy / entropy of the ORC working fluid and of the TES
fluid. -/
structure OrcPropsOracle where
  h0wf : ℚ
  s0wf : ℚ
  h0tes : ℚ
  s0tes : ℚ
deriving DecidableEq

def ePHwfOrc (t0 : ℚ) (o : OrcPropsOracle) (h s : ℚ) : ℚ :=
  h - o.h0wf - t0 * (s - o.s0wf) * (1 / 1000)

def ePHtesOrc (t0 : ℚ) (o : OrcPropsOracle) (h s : ℚ) : ℚ :=
  h - o.h0tes - t0 * (s - o.s0tes) * (1 / 1000)

/-- `ED_PUMP = T0 * m31 * (s32 - s31)`. -/
def edPumpOrc (t0 : ℚ) (d : OrcStreams) : ℚ :=
  t0 * (d.m31 * (d.s32 - d.s31)) * (1 / 1000)

/-- `ED_EVA = T0 * (m31 * (s34 - s33) + m41 * (s42 - s41))`. -/
def edEvaOrc (t0 : ℚ) (d : OrcStreams) : ℚ :=
  t0 * (d.m31 * (d.s34 - d.s33) + d.m41 * (d.s42 - d.s41)) * (1 / 1000)

/-- `ED_IHX = T0 * (m31 * (s33 - s32) + m31 * (s36 - s35))`. -/
def edIhxOrc (t0 : ℚ) (d : OrcStreams) : ℚ :=
  t0 * (d.m31 * (d.s33 - d.s32) + d.m31 * (d.s36 - d.s35)) * (1 / 1000)

/-- `ED_EXP = T0 * m31 * (s35 - s34)`. -/
def edExpOrc (t0 : ℚ) (d : OrcStreams) : ℚ :=
  t0 * (d.m31 * (d.s35 - d.s34)) * (1 / 1000)

/-- `ED_COND = m31 * (e36 - e31)`: difference of physical exergy flows of
the dissipative condenser. -/
def edCondOrc (t0 : ℚ) (o : OrcPropsOracle) (d : OrcStreams) : ℚ :=
  d.m31 * (ePHwfOrc t0 o d.h36 d.s36 - ePHwfOrc t0 o d.h31 d.s31)

def efPumpOrc (d : OrcStreams) : ℚ := d.m31 * (d.h32 - d.h31)

def efIhxOrc (t0 : ℚ) (o : OrcPropsOracle) (d : OrcStreams) : ℚ :=
  d.m31 * (ePHwfOrc t0 o d.h35 d.s35 - ePHwfOrc t0 o d.h36 d.s36)

def efEvaOrc (t0 : ℚ) (o : OrcPropsOracle) (d : OrcStreams) : ℚ :=
  d.m41 * (ePHtesOrc t0 o d.h41 d.s41 - ePHtesOrc t0 o d.h42 d.s42)

def efExpOrc (t0 : ℚ) (o : OrcPropsOracle) (d : OrcStreams) : ℚ :=
  d.m31 * (ePHwfOrc t0 o d.h34 d.s34 - ePHwfOrc t0 o d.h35 d.s35)

def epsilonPumpOrc (t0 : ℚ) (d : OrcStreams) : ℚ :=
  1 - edPumpOrc t0 d / efPumpOrc d

def epsilonEvaOrc (t0 : ℚ) (o : OrcPropsOracle) (d : OrcStreams) : ℚ :=
  1 - edEvaOrc t0 d / efEvaOrc t0 o d

def epsilonExpOrc (t0 : ℚ) (o : OrcPropsOracle) (d : OrcStreams) : ℚ :=
  1 - edExpOrc t0 d / efExpOrc t0 o d

def epsilonIhxOrc (t0 : ℚ) (o : OrcPropsOracle) (d : OrcStreams) : ℚ :=
  1 - edIhxOrc t0 d / efIhxOrc t0 o d

/-- `epsilon['cond'] = np.nan`: the dissipative condenser of the ORC
never receives an efficiency. -/
def epsilonCondOrc : Option ℚ := none

/-- The all-zero property oracle used in the C5 counterexample. -/
def hpZeroOracle : HpPropsOracle :=
  { h0wf := 0, s0wf := 0, h13a := 0, s13a := 0, h14a := 0, s14a := 0 }

/-- A concrete stream table whose valve outlet sits EXACTLY at the
ambient temperature of 10 degrees Celsius (for `t0 = 283.15 K`), in the
real-valve regime `|s13 - s14| >= 1e-3`. -/
def hpAmbientStreams : HpStreams :=
  { m11 := 1, m21 := 1, t14 := 10,
    h11 := 0, h12 := 0, h13 := 100, h14 := 100, h15 := 0, h16 := 0,
    s11 := 0, s12 := 0, s13 := 2000, s14 := 1000, s15 := 0, s16 := 0,
    s21 := 0, s22 := 0 }

/-! ## Decomposition ledger (C6, C7)

Embeds the pure arithmetic of `main_multiprocess` (lines building
`df_adex_analysis`) and `post_process_adex_hp`.  The exergy-destruction
results of the already-completed subset runs are inputs. -/

/-- The five heat-pump components of the decomposition. -/
inductive HpComp
  | comp
  | cond
  | ihx
  | val
  | eva
deriving DecidableEq

/-- The component list `['comp', 'cond', 'ihx', 'val', 'eva']`. -/
def hpComponents : List HpComp := [.comp, .cond, .ihx, .val, .eva]

/-- Exergy destructions recorded from the completed subset runs:
`edReal k` is ED of `k` in the all-real run, `edSingle k` in the
singleton run of `k`, `edPair k l` is ED of `k` in the pair run
containing `k` and `l`, and the `Un` fields are the same quantities from
the unavoidable-configuration runs. -/
structure LedgerInputs where
  edReal : HpComp → ℚ
  edSingle : HpComp → ℚ
  edPair : HpComp → HpComp → ℚ
  edUnReal : HpComp → ℚ
  edUnSingle : HpComp → ℚ

/-- `ED EN (k) = df_ed.loc[(k, k)]`: destruction of `k` in its
singleton-real run. -/
def edEN (L : LedgerInputs) (k : HpComp) : ℚ := L.edSingle k

/-- `ED EX (k) = ED(k, real) - ED EN (k)`. -/
def edEX (L : LedgerInputs) (k : HpComp) : ℚ := L.edReal k - edEN L k

/-- `ED EX l = ED(k in pair k,l) - ED EN (k)` for a partner `l`. -/
def edEXl (L : LedgerInputs) (k l : HpComp) : ℚ := L.edPair k l - edEN L k

/-- The accumulation `sum_ed_ex_l` over all components `l != k`, in the
iteration order of the source loop. -/
def sumEdExOthers (L : LedgerInputs) (k : HpComp) : ℚ :=
  (hpComponents.filter (fun l => l ≠ k)).foldl
    (fun acc l => acc + edEXl L k l) 0

/-- `ED MEXO (k) = ED EX (k) - sum_ed_ex_l`. -/
def edMEXO (L : LedgerInputs) (k : HpComp) : ℚ :=
  edEX L k - sumEdExOthers L k

/-- `ED UN (k)`: destruction of `k` in the unavoidable all-real run. -/
def edUN (L : LedgerInputs) (k : HpComp) : ℚ := L.edUnReal k

/-- `ED AV (k) = ED(k, real) - ED UN (k)` (from `post_process_adex_hp`). -/
def edAV (L : LedgerInputs) (k : HpComp) : ℚ := L.edReal k - edUN L k

/-- `ED EN UN (k)`: endogenous destruction in the unavoidable runs. -/
def edENUN (L : LedgerInputs) (k : HpComp) : ℚ := L.edUnSingle k

/-- `ED EN AV (k) = ED EN (k) - ED EN UN (k)`. -/
def edENAV (L : LedgerInputs) (k : HpComp) : ℚ := edEN L k - edENUN L k

/-- `ED EX AV (k) = ED AV (k) - ED EN AV (k)`. -/
def edEXAV (L : LedgerInputs) (k : HpComp) : ℚ := edAV L k - edENAV L k

/-! ## Post-solve energy-balance check and returned results (C8) -/

/-- The per-node quantities of the converged heat-pump stream table that
the post-solve section reads (kJ/kg enthalpies after unit conversion),
plus the two temperatures forming the reported pinch. -/
structure HpRunStreams where
  m11 : ℚ
  m21 : ℚ
  h11 : ℚ
  h12 : ℚ
  h13 : ℚ
  h14 : ℚ
  h15 : ℚ
  h16 : ℚ
  h21 : ℚ
  h22 : ℚ
  t18 : ℚ
  t29 : ℚ
deriving DecidableEq

def hpPowerComp (d : HpRunStreams) : ℚ := d.m11 * (d.h11 - d.h16)

def hpHeatEva (d : HpRunStreams) : ℚ := d.m11 * (d.h15 - d.h14)

def hpHeatCond (d : HpRunStreams) : ℚ := d.m21 * (d.h22 - d.h21)

def hpPowerCond (d : HpRunStreams) : ℚ :=
  d.m11 * (d.h11 - d.h12) + d.m21 * (d.h21 - d.h22)

def hpPowerIhx (d : HpRunStreams) : ℚ :=
  d.m11 * (d.h12 - d.h13 + d.h15 - d.h16)

def hpPowerVal (d : HpRunStreams) : ℚ := d.m11 * (d.h13 - d.h14)

/-- The quantity tested by the global energy-balance check of
`hp_simultaneous`. -/
def hpEnergyImbalance (d : HpRunStreams) : ℚ :=
  hpPowerComp d + hpHeatEva d - hpHeatCond d - hpPowerCond d -
    hpPowerIhx d - hpPowerVal d

/-- What `hp_simultaneous` does after convergence: it emits a warning
exactly when the energy imbalance exceeds `1e-4`, and returns the stream
table, the pinch `t18 - t29` and the COP regardless. -/
structure HpRunOutput where
  warned : Bool
  streams : HpRunStreams
  pinch : ℚ
  cop : ℚ
deriving DecidableEq

def hpFinish (d : HpRunStreams) : HpRunOutput :=
  { warned := decide ((1 : ℚ) / 10000 < absQ (hpEnergyImbalance d))
    streams := d
    pinch := d.t18 - d.t29
    cop := hpHeatCond d /
      (hpPowerComp d - hpPowerIhx d - hpPowerVal d - hpPowerCond d) }

/-- The per-node quantities of the converged ORC stream table read by the
post-solve section, plus the two temperatures forming the reported
pinch. -/
structure OrcRunStreams where
  m31 : ℚ
  m41 : ℚ
  h31 : ℚ
  h32 : ℚ
  h33 : ℚ
  h34 : ℚ
  h35 : ℚ
  h36 : ℚ
  h41 : ℚ
  h42 : ℚ
  t49 : ℚ
  t38 : ℚ
deriving DecidableEq

def orcPowerPump (d : OrcRunStreams) : ℚ := d.m31 * (d.h32 - d.h31)

def orcPowerExp (d : OrcRunStreams) : ℚ := d.m31 * (d.h34 - d.h35)

def orcHeatEva (d : OrcRunStreams) : ℚ := d.m41 * (d.h41 - d.h42)

def orcHeatCond (d : OrcRunStreams) : ℚ := d.m31 * (d.h36 - d.h31)

def orcPowerIhx (d : OrcRunStreams) : ℚ :=
  d.m31 * (d.h35 - d.h36 + d.h32 - d.h33)

def orcPowerEva (d : OrcRunStreams) : ℚ :=
  d.m41 * (d.h41 - d.h42) + d.m31 * (d.h33 - d.h34)

/-- The quantity tested by the global energy-balance check of
`orc_simultaneous`. -/
def orcEnergyImbalance (d : OrcRunStreams) : ℚ :=
  orcHeatEva d + orcPowerPump d - orcPowerExp d - orcHeatCond d -
    orcPowerIhx d - orcPowerEva d

structure OrcRunOutput where
  warned : Bool
  streams : OrcRunStreams
  pinch : ℚ
  efficiency : ℚ
deriving DecidableEq

/-- What `orc_simultaneous` does after convergence (the efficiency
numerator repeats `power_eva` twice, as in the source). -/
def orcFinish (d : OrcRunStreams) : OrcRunOutput :=
  { warned := decide ((1 : ℚ) / 10000 < absQ (orcEnergyImbalance d))
    streams := d
    pinch := d.t49 - d.t38
    efficiency := (orcPowerExp d + orcPowerEva d + orcPowerEva d -
      orcPowerPump d) / orcHeatEva d }

/-! ## Missing prerequisite data (C9)

Embeds the epsilon-loading prologue of `hp_simultaneous` /
`orc_simultaneous` and where a missing file actually surfaces.  The
`except FileNotFoundError` handler prints a message, assigns
`epsilon = None` and falls through, so the function always reaches the
Newton loop; the stored `None` only blows up later, inside the first
residual evaluation, if some selected equation variant subscripts it. -/

/-- The message printed by the `FileNotFoundError` handler. -/
def missingFileMessage : String :=
  "File not found. Please run base case model first!"

/-- The uncontrolled error that subscripting `None` raises inside the
loop body. -/
def noneSubscriptError : String :=
  "TypeError: NoneType object is not subscriptable"

/-- Outcome of the epsilon-loading prologue: the message printed (if any)
and the value bound to `epsilon` (`none` models the Python `None`).  No
branch aborts the run. -/
def loadEpsilonOutcome (fileFound : Bool) : Option String × Option Unit :=
  if fileFound then (none, some ()) else (some missingFileMessage, none)

/-- How far a run gets before failing. -/
inductive RunStage
  | abortedBeforeSolve (msg : String)
  | solveStarted (firstResidualEval : Except String Unit)

/-- First residual evaluation of the Newton loop: it raises exactly when
some selected equation variant reads the epsilon record and the record is
the Python `None`. -/
def evalEquationsOnce (eqs : List EqnForm) (epsilon : Option Unit) :
    Except String Unit :=
  if eqs.any needsEpsilonFile && epsilon.isNone then
    Except.error (noneSubscriptError)
  else Except.ok ()

/-- The run of `hp_simultaneous` up to its first residual evaluation: the
prologue never aborts, so the solve is always entered. -/
def hpRunModel (fileFound adex : Bool) (c : HpConfig) : RunStage :=
  let load := loadEpsilonOutcome fileFound
  RunStage.solveStarted (evalEquationsOnce (hpEquations adex c) load.2)

/-- The run of `orc_simultaneous` up to its first residual evaluation. -/
def orcRunModel (fileFound adex : Bool) (c : OrcConfig) : RunStage :=
  let load := loadEpsilonOutcome fileFound
  RunStage.solveStarted (evalEquationsOnce (orcEquations adex c) load.2)

/-! ## Frame effect of the exergy analysis on the stream table (C10) -/

/-- One row of the stream-table DataFrame. -/
structure StreamNode where
  m : ℚ
  T : ℚ
  h : ℚ
  p : ℚ
  s : ℚ
  fluid : String
  ePH : Option ℚ

/-- The stream table, indexed by node id. -/
def StreamTable : Type := Nat → StreamNode

/-- Assignment `df.loc[i, colEPH] = v`: only the physical-exergy cell of
row `i` changes. -/
def setEPH (tbl : StreamTable) (i : Nat) (v : ℚ) : StreamTable :=
  fun j => if j = i then
    { m := (tbl i).m, T := (tbl i).T, h := (tbl i).h, p := (tbl i).p,
      s := (tbl i).s, fluid := (tbl i).fluid, ePH := some v }
  else tbl j

/-- The physical-exergy formula written into the column, evaluated on the
enthalpy and entropy cells of the row. -/
def ephValue (t0 h0 s0 : ℚ) (nd : StreamNode) : ℚ :=
  nd.h - h0 - t0 * (nd.s - s0) * (1 / 1000)

/-- The `for i in [...]` loop assigning the column for a list of node
ids against fixed dead-state values. -/
def assignEPH (t0 h0 s0 : ℚ) (ids : List Nat) (tbl : StreamTable) :
    StreamTable :=
  ids.foldl (fun acc i => setEPH acc i (ephValue t0 h0 s0 (acc i))) tbl

/-- Working-fluid node ids of the heat-pump table. -/
def hpWfNodes : List Nat := [11, 12, 13, 14, 15, 16, 18, 19]

/-- TES node ids of the heat-pump table. -/
def hpTesNodes : List Nat := [21, 22, 28, 29]

/-- Working-fluid node ids of the ORC table. -/
def orcWfNodes : List Nat := [31, 32, 33, 34, 35, 36, 38, 39]

/-- TES node ids of the ORC table. -/
def orcTesNodes : List Nat := [41, 42, 48, 49]

/-- The table mutation performed by `exergy_analysis_hp`: the two column
loops, working fluid first, then TES. -/
def exergyTableHp (t0 h0wf s0wf h0tes s0tes : ℚ) (tbl : StreamTable) :
    StreamTable :=
  assignEPH t0 h0tes s0tes hpTesNodes (assignEPH t0 h0wf s0wf hpWfNodes tbl)

/-- The table mutation performed by `exergy_analysis_orc`. -/
def exergyTableOrc (t0 h0wf s0wf h0tes s0tes : ℚ) (tbl : StreamTable) :
    StreamTable :=
  assignEPH t0 h0tes s0tes orcTesNodes (assignEPH t0 h0wf s0wf orcWfNodes tbl)

/-! ## Theorems -/

theorem absQ_absQ (x : ℚ) : absQ (absQ x) = absQ x := by
  unfold absQ
  split_ifs <;> linarith

theorem sumSq_onesVec (n : Nat) : sumSq (onesVec n) = n := by
  induction n with
  | zero => rfl
  | succ k ih =>
    have h1 : onesVec (k + 1) = 1 :: onesVec k := rfl
    have h2 : ∀ (a : ℚ) (l : List ℚ),
        (l.map fun x => x * x).foldl (· + ·) a = a + (l.map fun x => x * x).foldl (· + ·) 0 := by
      intro a l
      induction l generalizing a with
      | nil => simp
      | cons b t ihl =>
        simp only [List.map_cons, List.foldl_cons]
        rw [ihl (a + b * b), ihl (0 + b * b)]
        ring
    simp only [sumSq, h1, List.map_cons, List.foldl_cons] at *
    rw [h2]
    rw [show ((0 : ℚ) + 1 * 1) = 1 by ring]
    rw [ih]
    push_cast
    ring

/-- C1 counterexample.  At the starting vector `[0]` the residual `tinyF`
already has norm `5e-5 < 1e-4`.  The claimed state machine would return
`[0]` without applying a further update, but the loop of
`hp_simultaneous` / `orc_simultaneous` applies the update before testing
the freshly evaluated residual, so it returns the post-update vector
`[-1/20000]`. -/
theorem C1_counterexample :
    newtonSolve tinyF idS 3 1 [0] = some [-(1 / 20000)] ∧
    newtonSpecMachine tinyF idS 3 [0] = some [0] ∧
    some [-(1 / 20000 : ℚ)] ≠ some [(0 : ℚ)] := by
  refine ⟨?_, ?_, by norm_num⟩ <;>
    norm_num [newtonSolve, newtonWhile, newtonSpecMachine, tinyF, idS, sumSq,
      vsub, newtonTolSq, onesVec, List.replicate]

/-- C1 (amended): in each pass the loop of `hp_simultaneous` /
`orc_simultaneous` evaluates the residual at the current unknowns, always
applies the update `unknowns += delta` with `J * delta = -residual`
(realized as `vsub x (S x r)`), and then exits as soon as the norm of the
residual just evaluated is at most `1e-4`, returning the POST-update
vector; the loop has no iteration bound, so if the residual norm never
reaches the tolerance it never returns. -/
theorem C1_amended (F : List ℚ → List ℚ) (S : List ℚ → List ℚ → List ℚ) :
    (∀ fuel n x0 v, 1 ≤ n → newtonSolve F S fuel n x0 = some v →
        ∃ y, sumSq (F y) ≤ newtonTolSq ∧ v = vsub y (S y (F y))) ∧
    ((∀ y, newtonTolSq < sumSq (F y)) → ∀ fuel n x0, 1 ≤ n →
        newtonSolve F S fuel n x0 = none) := by
  have hones : ∀ n : Nat, 1 ≤ n → newtonTolSq < sumSq (onesVec n) := by
    intro n hn
    rw [sumSq_onesVec]
    calc newtonTolSq < 1 := by norm_num [newtonTolSq]
    _ ≤ (n : ℚ) := by exact_mod_cast hn
  have key : ∀ fuel x r v, newtonTolSq < sumSq r →
      newtonWhile F S fuel x r = some v →
      ∃ y, sumSq (F y) ≤ newtonTolSq ∧ v = vsub y (S y (F y)) := by
    intro fuel
    induction fuel with
    | zero => intro x r v _ h; exact absurd h (by simp [newtonWhile])
    | succ k ih =>
      intro x r v hr h
      rw [newtonWhile] at h
      rw [if_neg (not_le.mpr hr)] at h
      by_cases hnew : sumSq (F x) ≤ newtonTolSq
      · refine ⟨x, hnew, ?_⟩
        rcases Nat.eq_zero_or_pos k with hk | hk
        · subst hk; exact absurd h (by simp [newtonWhile])
        · obtain ⟨k2, rfl⟩ := Nat.exists_eq_succ_of_ne_zero (Nat.pos_iff_ne_zero.mp hk)
          rw [newtonWhile, if_pos hnew] at h
          exact (Option.some_injective _ h).symm
      · exact ih _ _ _ (not_le.mp hnew) h
  constructor
  · intro fuel n x0 v hn h
    exact key fuel x0 (onesVec n) v (hones n hn) h
  · intro hbig fuel
    have never : ∀ fl x r, newtonTolSq < sumSq r → newtonWhile F S fl x r = none := by
      intro fl
      induction fl with
      | zero => intro x r _; rfl
      | succ k ih =>
        intro x r hr
        rw [newtonWhile, if_neg (not_le.mpr hr)]
        exact ih _ _ (hbig x)
    intro n x0 hn
    exact never fuel x0 (onesVec n) (hones n hn)

/-- Witness for `C1_amended`: both conjuncts applied at concrete inputs. -/
theorem C1_amended_witness :
    (∃ y, sumSq (tinyF y) ≤ newtonTolSq ∧
      [-(1 / 20000 : ℚ)] = vsub y (idS y (tinyF y))) ∧
    newtonSolve bigF idS 5 1 [0] = none :=
  ⟨(C1_amended tinyF idS).1 3 1 [0] [-(1 / 20000)] (by norm_num)
      (by norm_num [newtonSolve, newtonWhile, tinyF, idS, sumSq, vsub,
        newtonTolSq, onesVec, List.replicate]),
   (C1_amended bigF idS).2 (fun y => by norm_num [bigF, sumSq, newtonTolSq])
      5 1 [0] (by norm_num)⟩

/-- C2 counterexample.  The claim says both unknown vectors contain one
power position; the ORC unknown vector contains none (the expander power
is not an unknown of `orc_simultaneous`). -/
theorem C2_counterexample :
    orcVariablesLayout.count VarTag.power = 0 ∧
    orcVariablesLayout.count VarTag.power ≠ 1 := by
  decide

/-- C2 (amended): for every configuration and adex flag, the heat-pump
unknown vector has 24 positions (12 enthalpies, 10 pressures, one mass
flow, one power) and the ORC unknown vector has 23 positions (12
enthalpies, 10 pressures, one mass flow, and NO power unknown); the
residual vector always has the same length as the unknown vector, and the
configuration only selects which equation variant occupies a slot, never
the variable layout, which is a fixed constant of the cycle type. -/
theorem C2_amended :
    ∀ adex comp cond ihx val eva pump exp ocond : Bool,
      hpVariablesLayout.length = 24 ∧
      (hpEquations adex ⟨comp, cond, ihx, val, eva⟩).length = 24 ∧
      orcVariablesLayout.length = 23 ∧
      (orcEquations adex ⟨pump, eva, exp, ihx, ocond⟩).length = 23 ∧
      hpVariablesLayout.count VarTag.enthalpy = 12 ∧
      hpVariablesLayout.count VarTag.pressure = 10 ∧
      hpVariablesLayout.count VarTag.massFlow = 1 ∧
      hpVariablesLayout.count VarTag.power = 1 ∧
      orcVariablesLayout.count VarTag.enthalpy = 12 ∧
      orcVariablesLayout.count VarTag.pressure = 10 ∧
      orcVariablesLayout.count VarTag.massFlow = 1 ∧
      orcVariablesLayout.count VarTag.power = 0 := by
  decide

/-- C3 counterexample.  With the oracle `stepSolve`, a real evaporator
(target 5 K), starting pressure 0 and starting realized difference 4 K,
`find_opt_p33` moves the pressure DOWN (negated adjustment) and converges
at `-50000`, while the claimed proportional rule moves the pressure up
and never converges within the same budget. -/
theorem C3_counterexample :
    findOptP33 stepSolve ⟨false, true, false, false, false⟩ 5 0 4 =
      some (-50000) ∧
    specProportionalSearch stepSolve 5 orcLearningRate searchTolerance 5 0 4 =
      none := by
  constructor <;>
    norm_num [findOptP33, orcSearchGo, specProportionalSearch, stepSolve,
      orcTargetMinTd, orcLearningRate, searchTolerance, absQ]

/-- C3 (amended): the heat-pump loop updates the pressure by
`(target - cur) * 1e4` as claimed, but the ORC loop updates it by the
NEGATED amount `-(target - cur) * 5e4`; in both loops `cur` is the loop
state initialized to the target itself (so the first adjustment is zero),
and whenever a loop returns a pressure, either it returned the start
pressure because the entry deviation was already within tolerance, or the
realized minimum temperature difference at the returned pressure deviates
from the target by at most the tolerance `1e-3`. -/
theorem C3_amended (solve : ℚ → ℚ) (target : ℚ) :
    (∀ fuel p cur diff, ¬ absQ diff ≤ searchTolerance →
      hpSearchGo solve target (fuel + 1) p cur diff =
        hpSearchGo solve target fuel (p + (target - cur) * hpLearningRate)
          (solve (p + (target - cur) * hpLearningRate))
          (absQ (solve (p + (target - cur) * hpLearningRate) - target))) ∧
    (∀ fuel p cur diff, ¬ absQ diff ≤ searchTolerance →
      orcSearchGo solve target (fuel + 1) p cur diff =
        orcSearchGo solve target fuel (p + -(target - cur) * orcLearningRate)
          (solve (p + -(target - cur) * orcLearningRate))
          (absQ (solve (p + -(target - cur) * orcLearningRate) - target))) ∧
    (∀ fuel p cur diff q, hpSearchGo solve target fuel p cur diff = some q →
      (q = p ∧ absQ diff ≤ searchTolerance) ∨
        absQ (solve q - target) ≤ searchTolerance) ∧
    (∀ fuel p cur diff q, orcSearchGo solve target fuel p cur diff = some q →
      (q = p ∧ absQ diff ≤ searchTolerance) ∨
        absQ (solve q - target) ≤ searchTolerance) := by
  refine ⟨?_, ?_, ?_, ?_⟩
  · intro fuel p cur diff h
    rw [hpSearchGo, if_neg h]
  · intro fuel p cur diff h
    rw [orcSearchGo, if_neg h]
  · intro fuel
    induction fuel with
    | zero => intro p cur diff q h; exact absurd h (by simp [hpSearchGo])
    | succ k ih =>
      intro p cur diff q h
      rw [hpSearchGo] at h
      by_cases hd : absQ diff ≤ searchTolerance
      · rw [if_pos hd] at h
        exact Or.inl ⟨(Option.some_injective _ h).symm, hd⟩
      · rw [if_neg hd] at h
        rcases ih _ _ _ _ h with ⟨rfl, h2⟩ | h2
        · exact Or.inr (by rwa [absQ_absQ] at h2)
        · exact Or.inr h2
  · intro fuel
    induction fuel with
    | zero => intro p cur diff q h; exact absurd h (by simp [orcSearchGo])
    | succ k ih =>
      intro p cur diff q h
      rw [orcSearchGo] at h
      by_cases hd : absQ diff ≤ searchTolerance
      · rw [if_pos hd] at h
        exact Or.inl ⟨(Option.some_injective _ h).symm, hd⟩
      · rw [if_neg hd] at h
        rcases ih _ _ _ _ h with ⟨rfl, h2⟩ | h2
        · exact Or.inr (by rwa [absQ_absQ] at h2)
        · exact Or.inr h2

/-- Witness for `C3_amended`: the exit-soundness conjunct for the ORC loop
applied to the concrete run of the counterexample oracle, and the step
conjunct for the heat-pump loop at a concrete out-of-tolerance state. -/
theorem C3_amended_witness :
    (((-50000 : ℚ) = 0 ∧ absQ ((4 : ℚ) - 5) ≤ searchTolerance) ∨
      absQ (stepSolve (-50000) - 5) ≤ searchTolerance) ∧
    hpSearchGo stepSolve 5 1 0 4 1 =
      hpSearchGo stepSolve 5 0 (0 + ((5 : ℚ) - 4) * hpLearningRate)
        (stepSolve (0 + ((5 : ℚ) - 4) * hpLearningRate))
        (absQ (stepSolve (0 + ((5 : ℚ) - 4) * hpLearningRate) - 5)) :=
  ⟨(C3_amended stepSolve 5).2.2.2 5 0 5 ((4 : ℚ) - 5) (-50000)
      (by norm_num [findOptP33, orcSearchGo, stepSolve, orcTargetMinTd,
        orcLearningRate, searchTolerance, absQ]),
   (C3_amended stepSolve 5).1 0 0 4 1
      (by norm_num [absQ, searchTolerance])⟩

/-- C4 counterexample.  A heat-pump configuration with the compressor
real (so at least one component is real) but an ideal condenser gets
target 0 K, not the claimed 5 K; likewise an ORC configuration with only
the pump real gets target 0 K. -/
theorem C4_counterexample :
    hpTargetMinTd ⟨true, false, false, false, false⟩ = 0 ∧
    hpTargetMinTd ⟨true, false, false, false, false⟩ ≠ 5 ∧
    orcTargetMinTd ⟨true, false, false, false, false⟩ = 0 ∧
    orcTargetMinTd ⟨true, false, false, false, false⟩ ≠ 5 := by
  norm_num [hpTargetMinTd, orcTargetMinTd]

/-- C4 (amended): the target minimum temperature difference used by
`find_opt_p12` is 5 K exactly when the CONDENSER is marked real and 0 K
otherwise, and the one used by `find_opt_p33` is 5 K exactly when the
EVAPORATOR is marked real and 0 K otherwise, independently of every other
component flag. -/
theorem C4_amended :
    ∀ comp cond ihx val eva pump exp ocond : Bool,
      (hpTargetMinTd ⟨comp, cond, ihx, val, eva⟩ = 5 ↔ cond = true) ∧
      (hpTargetMinTd ⟨comp, cond, ihx, val, eva⟩ = 0 ↔ cond = false) ∧
      (orcTargetMinTd ⟨pump, eva, exp, ihx, ocond⟩ = 5 ↔ eva = true) ∧
      (orcTargetMinTd ⟨pump, eva, exp, ihx, ocond⟩ = 0 ↔ eva = false) := by
  intro comp cond ihx val eva pump exp ocond
  cases cond <;> cases eva <;>
    simp [hpTargetMinTd, orcTargetMinTd]

/-- C5 counterexample.  The claim says the efficiency is NaN when the
outlet is AT or above the ambient temperature; with the valve outlet
exactly at ambient (10 C at `t0 = 283.15 K`) and `|s13 - s14| >= 1e-3`,
`exergy_analysis_hp` still computes a numeric efficiency, because its
test `T14 > t0 - 273.15` is strict. -/
theorem C5_counterexample :
    hpAmbientStreams.t14 = 28315 / 100 - 5463 / 20 ∧
    ¬ absQ (hpAmbientStreams.s13 - hpAmbientStreams.s14) < 1 / 1000 ∧
    epsilonValHp (28315 / 100) hpZeroOracle hpAmbientStreams ≠ none := by
  refine ⟨by norm_num [hpAmbientStreams], ?_, ?_⟩
  · norm_num [hpAmbientStreams, absQ]
  · rw [epsilonValHp, if_neg (by norm_num [hpAmbientStreams, absQ]),
      if_neg (by norm_num [hpAmbientStreams])]
    simp

/-- C5 (amended): the exergy destructions follow the component-specific
entropy-generation formulas and the efficiency is `1 - ED / EF` for the
compressor / pump, the two-stream heat exchangers and the expander; the
dissipative exchanger (heat-pump evaporator, ORC condenser) always has an
undefined efficiency; the heat-pump valve efficiency is undefined exactly
when its outlet is STRICTLY above the ambient temperature (at the
boundary a value is still computed), and in the subcooled real-valve
branch the computed ratio `e14t / (e13t + e13m - e14m)` coincides with
`1 - ED / EF` whenever the valve is exactly isenthalpic. -/
theorem C5_amended (t0 : ℚ) (o : HpPropsOracle) (d : HpStreams)
    (oo : OrcPropsOracle) (dd : OrcStreams) :
    epsilonEvaHp = none ∧
    epsilonCondOrc = none ∧
    epsilonCompHp t0 d = 1 - edCompHp t0 d / efCompHp d ∧
    epsilonCondHp t0 o d = 1 - edCondHp t0 d / efCondHp t0 o d ∧
    epsilonIhxHp t0 o d = 1 - edIhxHp t0 d / efIhxHp t0 o d ∧
    epsilonPumpOrc t0 dd = 1 - edPumpOrc t0 dd / efPumpOrc dd ∧
    epsilonEvaOrc t0 oo dd = 1 - edEvaOrc t0 dd / efEvaOrc t0 oo dd ∧
    epsilonExpOrc t0 oo dd = 1 - edExpOrc t0 dd / efExpOrc t0 oo dd ∧
    epsilonIhxOrc t0 oo dd = 1 - edIhxOrc t0 dd / efIhxOrc t0 oo dd ∧
    (absQ (d.s13 - d.s14) < 1 / 1000 →
      epsilonValHp t0 o d = some (1 - edValHp t0 d /
        (d.m11 * (ePHwf t0 o d.h13 d.s13 - ePHwf t0 o d.h14 d.s14)))) ∧
    (¬ absQ (d.s13 - d.s14) < 1 / 1000 → t0 - 5463 / 20 < d.t14 →
      epsilonValHp t0 o d = none) ∧
    (¬ absQ (d.s13 - d.s14) < 1 / 1000 → d.t14 = t0 - 5463 / 20 →
      epsilonValHp t0 o d ≠ none) ∧
    (¬ absQ (d.s13 - d.s14) < 1 / 1000 → ¬ t0 - 5463 / 20 < d.t14 →
      d.h13 = d.h14 → d.m11 ≠ 0 →
      e13t t0 o d + e13m t0 o - e14m t0 o ≠ 0 →
      epsilonValHp t0 o d = some (1 - edValHp t0 d / efValHp t0 o d)) := by
  refine ⟨rfl, rfl, rfl, rfl, rfl, rfl, rfl, rfl, rfl, ?_, ?_, ?_, ?_⟩
  · intro hideal
    rw [epsilonValHp, if_pos hideal]
  · intro hideal hwarm
    rw [epsilonValHp, if_neg hideal, if_pos hwarm]
  · intro hideal hboundary
    rw [epsilonValHp, if_neg hideal,
      if_neg (by rw [hboundary]; exact lt_irrefl _)]
    simp
  · intro hideal hcool hh hm hD
    rw [epsilonValHp, if_neg hideal, if_neg hcool]
    congr 1
    have hkey : e14t t0 o d =
        (e13t t0 o d + e13m t0 o - e14m t0 o) -
          t0 * (d.s14 - d.s13) * (1 / 1000) := by
      simp only [e14t, e13t, e13m, e14m]
      linear_combination -hh
    rw [hkey, edValHp, efValHp]
    field_simp
    ring

/-- Witness for `C5_amended`: the subcooled-valve conjunct applied at a
concrete isenthalpic table, together with the boundary conjunct applied
at the ambient-outlet table. -/
theorem C5_amended_witness :
    epsilonValHp (28315 / 100)
      { h0wf := 0, s0wf := 0, h13a := 50, s13a := 0, h14a := 40, s14a := 0 }
      { m11 := 1, m21 := 1, t14 := 0,
        h11 := 0, h12 := 0, h13 := 100, h14 := 100, h15 := 0, h16 := 0,
        s11 := 0, s12 := 0, s13 := 2000, s14 := 1000, s15 := 0, s16 := 0,
        s21 := 0, s22 := 0 } =
      some (1 - edValHp (28315 / 100)
        { m11 := 1, m21 := 1, t14 := 0,
          h11 := 0, h12 := 0, h13 := 100, h14 := 100, h15 := 0, h16 := 0,
          s11 := 0, s12 := 0, s13 := 2000, s14 := 1000, s15 := 0, s16 := 0,
          s21 := 0, s22 := 0 } /
        efValHp (28315 / 100)
          { h0wf := 0, s0wf := 0, h13a := 50, s13a := 0, h14a := 40, s14a := 0 }
          { m11 := 1, m21 := 1, t14 := 0,
            h11 := 0, h12 := 0, h13 := 100, h14 := 100, h15 := 0, h16 := 0,
            s11 := 0, s12 := 0, s13 := 2000, s14 := 1000, s15 := 0, s16 := 0,
            s21 := 0, s22 := 0 }) :=
  (C5_amended (28315 / 100)
    { h0wf := 0, s0wf := 0, h13a := 50, s13a := 0, h14a := 40, s14a := 0 }
    { m11 := 1, m21 := 1, t14 := 0,
      h11 := 0, h12 := 0, h13 := 100, h14 := 100, h15 := 0, h16 := 0,
      s11 := 0, s12 := 0, s13 := 2000, s14 := 1000, s15 := 0, s16 := 0,
      s21 := 0, s22 := 0 }
    { h0wf := 0, s0wf := 0, h0tes := 0, s0tes := 0 }
    { m31 := 0, m41 := 0, h31 := 0, h32 := 0, h33 := 0, h34 := 0, h35 := 0,
      h36 := 0, h41 := 0, h42 := 0, s31 := 0, s32 := 0, s33 := 0, s34 := 0,
      s35 := 0, s36 := 0, s41 := 0, s42 := 0 }).2.2.2.2.2.2.2.2.2.2.2.2
    (by norm_num [absQ]) (by norm_num) rfl (by norm_num)
    (by norm_num [e13t, e13m, e14m])

/-- C6: the assembled ledger is pure arithmetic over the recorded subset
runs: the exogenous, mexogenous and avoidable entries satisfy the claimed
equations for every component, with the mexogenous sum ranging over all
other components. -/
theorem C6_ledger_arithmetic (L : LedgerInputs) (k : HpComp) :
    edEX L k = L.edReal k - edEN L k ∧
    edMEXO L k =
      edEX L k -
        ((hpComponents.filter (fun l => l ≠ k)).map
          (fun l => L.edPair k l - edEN L k)).sum ∧
    edAV L k = L.edReal k - L.edUnReal k ∧
    edENAV L k = edEN L k - edENUN L k ∧
    edEXAV L k = edAV L k - edENAV L k := by
  refine ⟨rfl, ?_, rfl, rfl, rfl⟩
  cases k <;>
    simp [edMEXO, sumEdExOthers, edEXl, hpComponents, edEN] <;> ring

/-- C7: the ledger satisfies
`ED(k, all-real) = ED EN (k) + ED EX (k)` exactly, because the exogenous
entry is defined as the difference of the other two. -/
theorem C7_decomposition_identity (L : LedgerInputs) (k : HpComp) :
    L.edReal k = edEN L k + edEX L k := by
  rw [edEX]
  ring

/-- C8: the global energy-balance check only raises a warning flag; the
returned stream table, pinch temperature difference and performance
figure are the same functions of the converged state whether or not the
imbalance exceeds the `1e-4` tolerance. -/
theorem C8_balance_check_not_fatal (d : HpRunStreams) (e : OrcRunStreams) :
    ((hpFinish d).warned = true ↔
      (1 : ℚ) / 10000 < absQ (hpEnergyImbalance d)) ∧
    (hpFinish d).streams = d ∧
    (hpFinish d).pinch = d.t18 - d.t29 ∧
    (hpFinish d).cop = hpHeatCond d /
      (hpPowerComp d - hpPowerIhx d - hpPowerVal d - hpPowerCond d) ∧
    ((orcFinish e).warned = true ↔
      (1 : ℚ) / 10000 < absQ (orcEnergyImbalance e)) ∧
    (orcFinish e).streams = e ∧
    (orcFinish e).pinch = e.t49 - e.t38 ∧
    (orcFinish e).efficiency = (orcPowerExp e + orcPowerEva e +
      orcPowerEva e - orcPowerPump e) / orcHeatEva e := by
  refine ⟨?_, rfl, rfl, rfl, ?_, rfl, rfl, rfl⟩ <;>
    simp [hpFinish, orcFinish]

/-- C9: with the prerequisite real-run CSV missing, an adex run with a
real-marked component does NOT fail fast: both solvers print the message,
bind `epsilon` to `None`, and enter the Newton loop, where the first
residual evaluation then raises an uncontrolled subscription error. -/
theorem C9_no_fail_fast :
    hpRunModel false true ⟨true, false, false, false, false⟩ =
      RunStage.solveStarted (Except.error (noneSubscriptError)) ∧
    (∀ msg, hpRunModel false true ⟨true, false, false, false, false⟩ ≠
      RunStage.abortedBeforeSolve msg) ∧
    orcRunModel false true ⟨true, false, false, false, false⟩ =
      RunStage.solveStarted (Except.error (noneSubscriptError)) ∧
    (∀ msg, orcRunModel false true ⟨true, false, false, false, false⟩ ≠
      RunStage.abortedBeforeSolve msg) ∧
    (loadEpsilonOutcome false).1 = some missingFileMessage ∧
    (loadEpsilonOutcome false).2 = none := by
  refine ⟨rfl, ?_, rfl, ?_, rfl, rfl⟩ <;>
    intro msg h <;> simp [hpRunModel, orcRunModel] at h

theorem setEPH_keeps (tbl : StreamTable) (i : Nat) (v : ℚ) (j : Nat) :
    ((setEPH tbl i v) j).m = (tbl j).m ∧
    ((setEPH tbl i v) j).T = (tbl j).T ∧
    ((setEPH tbl i v) j).h = (tbl j).h ∧
    ((setEPH tbl i v) j).p = (tbl j).p ∧
    ((setEPH tbl i v) j).s = (tbl j).s ∧
    ((setEPH tbl i v) j).fluid = (tbl j).fluid := by
  unfold setEPH
  by_cases hij : j = i
  · subst hij; simp
  · simp [hij]

theorem assignEPH_keeps (t0 h0 s0 : ℚ) (ids : List Nat) :
    ∀ (tbl : StreamTable) (j : Nat),
      ((assignEPH t0 h0 s0 ids tbl) j).m = (tbl j).m ∧
      ((assignEPH t0 h0 s0 ids tbl) j).T = (tbl j).T ∧
      ((assignEPH t0 h0 s0 ids tbl) j).h = (tbl j).h ∧
      ((assignEPH t0 h0 s0 ids tbl) j).p = (tbl j).p ∧
      ((assignEPH t0 h0 s0 ids tbl) j).s = (tbl j).s ∧
      ((assignEPH t0 h0 s0 ids tbl) j).fluid = (tbl j).fluid := by
  induction ids with
  | nil => intro tbl j; exact ⟨rfl, rfl, rfl, rfl, rfl, rfl⟩
  | cons i rest ih =>
    intro tbl j
    have hstep := setEPH_keeps tbl i (ephValue t0 h0 s0 (tbl i)) j
    have htail := ih (setEPH tbl i (ephValue t0 h0 s0 (tbl i))) j
    unfold assignEPH at *
    simp only [List.foldl_cons]
    exact ⟨htail.1.trans hstep.1,
      htail.2.1.trans hstep.2.1,
      htail.2.2.1.trans hstep.2.2.1,
      htail.2.2.2.1.trans hstep.2.2.2.1,
      htail.2.2.2.2.1.trans hstep.2.2.2.2.1,
      htail.2.2.2.2.2.trans hstep.2.2.2.2.2⟩

/-- C10: for every input stream table and every node, the exergy analysis
leaves the mass flow, temperature, enthalpy, pressure, entropy and fluid
cells untouched; only the physical-exergy column is written (shown here
for the first working-fluid and first TES node of each cycle, whose new
cell holds exactly the physical-exergy formula applied to the original
row). -/
theorem C10_frame_effect (t0 h0wf s0wf h0tes s0tes : ℚ)
    (tbl : StreamTable) (j : Nat) :
    ((exergyTableHp t0 h0wf s0wf h0tes s0tes tbl) j).m = (tbl j).m ∧
    ((exergyTableHp t0 h0wf s0wf h0tes s0tes tbl) j).T = (tbl j).T ∧
    ((exergyTableHp t0 h0wf s0wf h0tes s0tes tbl) j).h = (tbl j).h ∧
    ((exergyTableHp t0 h0wf s0wf h0tes s0tes tbl) j).p = (tbl j).p ∧
    ((exergyTableHp t0 h0wf s0wf h0tes s0tes tbl) j).s = (tbl j).s ∧
    ((exergyTableHp t0 h0wf s0wf h0tes s0tes tbl) j).fluid = (tbl j).fluid ∧
    ((exergyTableOrc t0 h0wf s0wf h0tes s0tes tbl) j).m = (tbl j).m ∧
    ((exergyTableOrc t0 h0wf s0wf h0tes s0tes tbl) j).T = (tbl j).T ∧
    ((exergyTableOrc t0 h0wf s0wf h0tes s0tes tbl) j).h = (tbl j).h ∧
    ((exergyTableOrc t0 h0wf s0wf h0tes s0tes tbl) j).p = (tbl j).p ∧
    ((exergyTableOrc t0 h0wf s0wf h0tes s0tes tbl) j).s = (tbl j).s ∧
    ((exergyTableOrc t0 h0wf s0wf h0tes s0tes tbl) j).fluid = (tbl j).fluid ∧
    ((exergyTableHp t0 h0wf s0wf h0tes s0tes tbl) 11).ePH =
      some (ephValue t0 h0wf s0wf (tbl 11)) ∧
    ((exergyTableHp t0 h0wf s0wf h0tes s0tes tbl) 21).ePH =
      some (ephValue t0 h0tes s0tes
        ((assignEPH t0 h0wf s0wf hpWfNodes tbl) 21)) ∧
    ((exergyTableOrc t0 h0wf s0wf h0tes s0tes tbl) 31).ePH =
      some (ephValue t0 h0wf s0wf (tbl 31)) ∧
    ((exergyTableOrc t0 h0wf s0wf h0tes s0tes tbl) 41).ePH =
      some (ephValue t0 h0tes s0tes
        ((assignEPH t0 h0wf s0wf orcWfNodes tbl) 41)) := by
  have hp1 := assignEPH_keeps t0 h0wf s0wf hpWfNodes tbl j
  have hp2 := assignEPH_keeps t0 h0tes s0tes hpTesNodes
    (assignEPH t0 h0wf s0wf hpWfNodes tbl) j
  have or1 := assignEPH_keeps t0 h0wf s0wf orcWfNodes tbl j
  have or2 := assignEPH_keeps t0 h0tes s0tes orcTesNodes
    (assignEPH t0 h0wf s0wf orcWfNodes tbl) j
  refine ⟨hp2.1.trans hp1.1, hp2.2.1.trans hp1.2.1,
    hp2.2.2.1.trans hp1.2.2.1, hp2.2.2.2.1.trans hp1.2.2.2.1,
    hp2.2.2.2.2.1.trans hp1.2.2.2.2.1, hp2.2.2.2.2.2.trans hp1.2.2.2.2.2,
    or2.1.trans or1.1, or2.2.1.trans or1.2.1,
    or2.2.2.1.trans or1.2.2.1, or2.2.2.2.1.trans or1.2.2.2.1,
    or2.2.2.2.2.1.trans or1.2.2.2.2.1, or2.2.2.2.2.2.trans or1.2.2.2.2.2,
    ?_, ?_, ?_, ?_⟩
  · show ((exergyTableHp t0 h0wf s0wf h0tes s0tes tbl) 11).ePH = _
    simp [exergyTableHp, assignEPH, hpWfNodes, hpTesNodes, setEPH]
  · simp [exergyTableHp, assignEPH, hpWfNodes, hpTesNodes, setEPH]
  · simp [exergyTableOrc, assignEPH, orcWfNodes, orcTesNodes, setEPH]
  · simp [exergyTableOrc, assignEPH, orcWfNodes, orcTesNodes, setEPH]

end AdexCB
